import Mathlib

/-!
Shallow embedding of the `UnifiedPhoneControls` Lightning Web Component
(call-lifecycle and hold-timer state engine) from
`src/Chat Coach and Sentiment/chatWidget/chatWidget.js`.

Timestamps are modelled as `Int` milliseconds (JS `Date.now()` / `Date`
values); `Math.floor(x / 1000)` on a possibly negative difference is
floor division, `Int.fdiv _ 1000`.  JS `null` fields become `Option`.
`setInterval` handles are modelled as a `Bool` recording whether the
interval is registered; the interval callbacks themselves
(`updateCallDuration`, `updateHoldDisplayTimer`) are explicit events.
The call status, stored as a string in the source (`'No Call'`,
`'Incoming'`, `'Connected'`, `'Ended'`), is kept as a `String`.
Display-only fields (phone number, drag position, debug log, toasts)
are outside every claim and are not part of the state.
-/

namespace UnifiedPhoneControls

/-- One completed hold interval, as pushed by `endHoldTimer`.  The source
stores `startTime`/`endTime` as ISO strings of the millisecond
timestamps; we keep the timestamps themselves. -/
structure HoldSession where
  sessionNumber : Nat
  startTime : Int
  endTime : Int
  duration : Int
deriving DecidableEq, Repr

/-- The component state: the `@track`/instance fields of
`UnifiedPhoneControls` that take part in the call-lifecycle and
hold-timer engine. -/
structure State where
  isCallActive : Bool
  callStatus : String
  isOnHold : Bool
  isMuted : Bool
  isRecording : Bool
  callDuration : Int
  formattedCallDuration : String
  callStartTime : Option Int
  callDurationInterval : Bool
  totalHoldTime : Int
  currentHoldStart : Option Int
  holdSessions : List HoldSession
  formattedTotalHoldTime : String
  holdColorClass : String
  holdTimerInterval : Bool
  telephonyAvailable : Bool
  toolkitApiAvailable : Bool
  eventListenersSetup : Bool
  toolkitCheckInterval : Bool
  callEndDateTime : Option Int
deriving DecidableEq, Repr

/-- `n.toString().padStart(2, '0')`. -/
def padStart2 (n : Nat) : String :=
  if n < 10 then "0" ++ toString n else "" ++ toString n

/-- `formatTime(seconds, includeHours)`: `!seconds || seconds < 0`
yields the zero display (for integer seconds this is `seconds ≤ 0`);
otherwise HH:MM:SS or MM:SS. -/
def formatTime (seconds : Int) (includeHours : Bool) : String :=
  if seconds ≤ 0 then (if includeHours then "00:00:00" else "00:00")
  else
    let s := seconds.toNat
    let hrs := s / 3600
    let mins := (s % 3600) / 60
    let secs := s % 60
    if includeHours then
      padStart2 hrs ++ ":" ++ padStart2 mins ++ ":" ++ padStart2 secs
    else
      padStart2 mins ++ ":" ++ padStart2 secs

/-- `getHoldColorClass(duration)`. -/
def getHoldColorClass (duration : Int) : String :=
  if duration ≤ 30 then "hold-timer-green"
  else if duration ≤ 120 then "hold-timer-yellow"
  else "hold-timer-red"

/-- State after the field initializers and `connectedCallback` (which
starts toolkit polling). -/
def initialState : State where
  isCallActive := false
  callStatus := "No Call"
  isOnHold := false
  isMuted := false
  isRecording := true
  callDuration := 0
  formattedCallDuration := "00:00:00"
  callStartTime := none
  callDurationInterval := false
  totalHoldTime := 0
  currentHoldStart := none
  holdSessions := []
  formattedTotalHoldTime := "00:00"
  holdColorClass := "hold-timer-green"
  holdTimerInterval := false
  telephonyAvailable := false
  toolkitApiAvailable := false
  eventListenersSetup := false
  toolkitCheckInterval := true
  callEndDateTime := none

/-- `startCallDurationTimer()`: (re)registers the 1 Hz duration
interval. -/
def startCallDurationTimer (s : State) : State :=
  { s with callDurationInterval := true }

/-- `updateCallDuration()`: the duration interval callback, with `now`
the current time.  With no `callStartTime` or an inactive call it only
forces the zero display; otherwise it recomputes
`callDuration = floor((now - callStartTime)/1000)` and its display. -/
def updateCallDuration (now : Int) (s : State) : State :=
  match s.callStartTime, s.isCallActive with
  | some start, true =>
      let d := (now - start).fdiv 1000
      { s with callDuration := d, formattedCallDuration := formatTime d true }
  | _, _ => { s with formattedCallDuration := "00:00:00" }

/-- `startHoldTimer()`: no-op when already on hold; otherwise records
`currentHoldStart = now`, sets `isOnHold`, and registers the hold
display interval. -/
def startHoldTimer (now : Int) (s : State) : State :=
  if s.isOnHold then s
  else
    { s with currentHoldStart := some now, isOnHold := true,
             holdTimerInterval := true }

/-- `endHoldTimer()`: no-op unless on hold with `currentHoldStart` set;
otherwise closes the open hold session at time `now`, accumulates its
duration, appends the `HoldSession`, clears the hold state, cancels the
display interval and refreshes the final display. -/
def endHoldTimer (now : Int) (s : State) : State :=
  match s.isOnHold, s.currentHoldStart with
  | true, some start =>
      let holdDuration := (now - start).fdiv 1000
      let newTotal := s.totalHoldTime + holdDuration
      { s with
        totalHoldTime := newTotal,
        holdSessions := s.holdSessions ++
          [{ sessionNumber := s.holdSessions.length + 1,
             startTime := start, endTime := now,
             duration := holdDuration }],
        isOnHold := false,
        currentHoldStart := none,
        holdTimerInterval := false,
        formattedTotalHoldTime := formatTime newTotal false,
        holdColorClass := getHoldColorClass newTotal }
  | _, _ => s

/-- `updateHoldDisplayTimer()`: the hold display interval callback;
recomputes the displayed total `totalHoldTime + elapsed` while on
hold. -/
def updateHoldDisplayTimer (now : Int) (s : State) : State :=
  match s.isOnHold, s.currentHoldStart with
  | true, some start =>
      let displayTime := s.totalHoldTime + (now - start).fdiv 1000
      { s with formattedTotalHoldTime := formatTime displayTime false,
               holdColorClass := getHoldColorClass displayTime }
  | _, _ => s

/-- `resetHoldTimer()`: full hold-state reset for a fresh call. -/
def resetHoldTimer (s : State) : State :=
  { s with totalHoldTime := 0, currentHoldStart := none, isOnHold := false,
           holdSessions := [], formattedTotalHoldTime := "00:00",
           holdColorClass := "hold-timer-green", holdTimerInterval := false }

/-- `handleCallStarted()` (invoked from the `callconnected` handler):
resets the hold state, marks the call active and `Connected`, anchors
`callStartTime = new Date()` and starts the duration interval. -/
def handleCallStarted (now : Int) (s : State) : State :=
  let s1 := resetHoldTimer s
  let s2 := { s1 with isCallActive := true, callStatus := "Connected",
                      callStartTime := some now }
  startCallDurationTimer s2

/-- `stopToolkitPolling()`. -/
def stopToolkitPolling (s : State) : State :=
  { s with toolkitCheckInterval := false }

/-- `cleanupTimers()`: cancels the duration and hold display intervals
and stops toolkit polling. -/
def cleanupTimers (s : State) : State :=
  stopToolkitPolling { s with callDurationInterval := false,
                              holdTimerInterval := false }

/-- `finalizeCall()`: marks the call ended (`callEndDateTime = now`,
telephony unavailable), force-closes an open hold session via
`endHoldTimer`, and cancels all timers. -/
def finalizeCall (now : Int) (s : State) : State :=
  let s1 := { s with isCallActive := false, callStatus := "Ended",
                     callEndDateTime := some now,
                     telephonyAvailable := false }
  let s2 := if s1.isOnHold then endHoldTimer now s1 else s1
  cleanupTimers s2

/-- `handleHoldEvent`. -/
def handleHoldEvent (now : Int) (s : State) : State :=
  startHoldTimer now s

/-- `handleResumeEvent`: the toolkit emits `resume` both entering and
leaving hold, so the handler dispatches on the current `isOnHold`
flag. -/
def handleResumeEvent (now : Int) (s : State) : State :=
  if s.isOnHold then endHoldTimer now s else startHoldTimer now s

/-- `handleMuteEvent`. -/
def handleMuteEvent (s : State) : State :=
  { s with isMuted := true }

/-- `handleUnmuteEvent`. -/
def handleUnmuteEvent (s : State) : State :=
  { s with isMuted := false }

/-- `handleCallStartedEvent`: unconditionally sets status `Incoming`
and marks the call active. -/
def handleCallStartedEvent (s : State) : State :=
  { s with callStatus := "Incoming", isCallActive := true }

/-- `handleCallConnectedEvent`: delegates to `handleCallStarted`. -/
def handleCallConnectedEvent (now : Int) (s : State) : State :=
  handleCallStarted now s

/-- `handleCallEndedEvent` (registered for both `callended` and
`hangup`): delegates to `finalizeCall`. -/
def handleCallEndedEvent (now : Int) (s : State) : State :=
  finalizeCall now s

/-- `processVoiceCallData(data)`: of the state-engine fields this sets
only `callEndDateTime` from the record; the record's
`CallStartDateTime` (first argument) is deliberately never read into
`callStartTime`. -/
def processVoiceCallData (callStartDateTime : Option Int)
    (callEndDateTime : Option Int) (s : State) : State :=
  { s with callEndDateTime := callEndDateTime }

/-- `setupToolkitEventListeners()`: idempotent; on first success marks
the toolkit available, registers the listeners and stops polling. -/
def setupToolkitEventListeners (s : State) : State :=
  if s.eventListenersSetup then s
  else
    stopToolkitPolling
      { s with toolkitApiAvailable := true, telephonyAvailable := true,
               eventListenersSetup := true }

/-- `getCurrentHoldTime()` (public API): elapsed whole seconds of the
currently open hold session, `0` when none is open. -/
def getCurrentHoldTime (now : Int) (s : State) : Int :=
  match s.isOnHold, s.currentHoldStart with
  | true, some start => (now - start).fdiv 1000
  | _, _ => 0

/-- `getTotalHoldTime()` (public API): accumulated total plus the open
session's elapsed seconds. -/
def getTotalHoldTime (now : Int) (s : State) : Int :=
  s.totalHoldTime + getCurrentHoldTime now s

/-- The external stimuli that mutate the engine: the eight toolkit
events, the two interval callbacks, the wire record load, and toolkit
discovery by the poller. -/
inductive Event where
  | hold
  | resume
  | mute
  | unmute
  | callstarted
  | callconnected
  | callended
  | hangup
  | durationTick
  | holdTick
  | recordLoad (callStartDateTime : Option Int) (callEndDateTime : Option Int)
  | toolkitFound
deriving DecidableEq, Repr

/-- Dispatch one stimulus at time `now`, exactly as the registered
handlers do. -/
def step (e : Event) (now : Int) (s : State) : State :=
  match e with
  | .hold => handleHoldEvent now s
  | .resume => handleResumeEvent now s
  | .mute => handleMuteEvent s
  | .unmute => handleUnmuteEvent s
  | .callstarted => handleCallStartedEvent s
  | .callconnected => handleCallConnectedEvent now s
  | .callended => handleCallEndedEvent now s
  | .hangup => handleCallEndedEvent now s
  | .durationTick => updateCallDuration now s
  | .holdTick => updateHoldDisplayTimer now s
  | .recordLoad cs ce => setupToolkitEventListeners (processVoiceCallData cs ce s)
  | .toolkitFound => setupToolkitEventListeners s

/-- Run a timestamped stimulus sequence in delivery order. -/
def run (evs : List (Event × Int)) (s : State) : State :=
  evs.foldl (fun st p => step p.1 p.2 st) s

/-! ### Frame lemmas: which fields each operation leaves untouched. -/

theorem run_cons (e : Event) (t : Int) (evs : List (Event × Int)) (s : State) :
    run ((e, t) :: evs) s = run evs (step e t s) := rfl

theorem startHoldTimer_callStatus (now : Int) (s : State) :
    (startHoldTimer now s).callStatus = s.callStatus := by
  unfold startHoldTimer; split <;> rfl

theorem startHoldTimer_callStartTime (now : Int) (s : State) :
    (startHoldTimer now s).callStartTime = s.callStartTime := by
  unfold startHoldTimer; split <;> rfl

theorem startHoldTimer_callDuration (now : Int) (s : State) :
    (startHoldTimer now s).callDuration = s.callDuration := by
  unfold startHoldTimer; split <;> rfl

theorem startHoldTimer_formattedCallDuration (now : Int) (s : State) :
    (startHoldTimer now s).formattedCallDuration = s.formattedCallDuration := by
  unfold startHoldTimer; split <;> rfl

theorem startHoldTimer_holdSessions (now : Int) (s : State) :
    (startHoldTimer now s).holdSessions = s.holdSessions := by
  unfold startHoldTimer; split <;> rfl

theorem startHoldTimer_totalHoldTime (now : Int) (s : State) :
    (startHoldTimer now s).totalHoldTime = s.totalHoldTime := by
  unfold startHoldTimer; split <;> rfl

theorem startHoldTimer_isOnHold (now : Int) (s : State) :
    (startHoldTimer now s).isOnHold = true := by
  unfold startHoldTimer; split
  · assumption
  · rfl

theorem endHoldTimer_callStatus (now : Int) (s : State) :
    (endHoldTimer now s).callStatus = s.callStatus := by
  unfold endHoldTimer; split <;> rfl

theorem endHoldTimer_callStartTime (now : Int) (s : State) :
    (endHoldTimer now s).callStartTime = s.callStartTime := by
  unfold endHoldTimer; split <;> rfl

theorem endHoldTimer_callDuration (now : Int) (s : State) :
    (endHoldTimer now s).callDuration = s.callDuration := by
  unfold endHoldTimer; split <;> rfl

theorem endHoldTimer_formattedCallDuration (now : Int) (s : State) :
    (endHoldTimer now s).formattedCallDuration = s.formattedCallDuration := by
  unfold endHoldTimer; split <;> rfl

theorem endHoldTimer_of_not_onHold (now : Int) (s : State)
    (h : s.isOnHold = false) : endHoldTimer now s = s := by
  unfold endHoldTimer
  rw [h]

theorem updateCallDuration_callStatus (now : Int) (s : State) :
    (updateCallDuration now s).callStatus = s.callStatus := by
  unfold updateCallDuration; split <;> rfl

theorem updateCallDuration_callStartTime (now : Int) (s : State) :
    (updateCallDuration now s).callStartTime = s.callStartTime := by
  unfold updateCallDuration; split <;> rfl

theorem updateCallDuration_holdSessions (now : Int) (s : State) :
    (updateCallDuration now s).holdSessions = s.holdSessions := by
  unfold updateCallDuration; split <;> rfl

theorem updateCallDuration_totalHoldTime (now : Int) (s : State) :
    (updateCallDuration now s).totalHoldTime = s.totalHoldTime := by
  unfold updateCallDuration; split <;> rfl

theorem updateHoldDisplayTimer_callStatus (now : Int) (s : State) :
    (updateHoldDisplayTimer now s).callStatus = s.callStatus := by
  unfold updateHoldDisplayTimer; split <;> rfl

theorem updateHoldDisplayTimer_callStartTime (now : Int) (s : State) :
    (updateHoldDisplayTimer now s).callStartTime = s.callStartTime := by
  unfold updateHoldDisplayTimer; split <;> rfl

theorem updateHoldDisplayTimer_callDuration (now : Int) (s : State) :
    (updateHoldDisplayTimer now s).callDuration = s.callDuration := by
  unfold updateHoldDisplayTimer; split <;> rfl

theorem updateHoldDisplayTimer_formattedCallDuration (now : Int) (s : State) :
    (updateHoldDisplayTimer now s).formattedCallDuration
      = s.formattedCallDuration := by
  unfold updateHoldDisplayTimer; split <;> rfl

theorem updateHoldDisplayTimer_holdSessions (now : Int) (s : State) :
    (updateHoldDisplayTimer now s).holdSessions = s.holdSessions := by
  unfold updateHoldDisplayTimer; split <;> rfl

theorem updateHoldDisplayTimer_totalHoldTime (now : Int) (s : State) :
    (updateHoldDisplayTimer now s).totalHoldTime = s.totalHoldTime := by
  unfold updateHoldDisplayTimer; split <;> rfl

theorem setupToolkitEventListeners_callStatus (s : State) :
    (setupToolkitEventListeners s).callStatus = s.callStatus := by
  unfold setupToolkitEventListeners stopToolkitPolling; split <;> rfl

theorem setupToolkitEventListeners_callStartTime (s : State) :
    (setupToolkitEventListeners s).callStartTime = s.callStartTime := by
  unfold setupToolkitEventListeners stopToolkitPolling; split <;> rfl

theorem setupToolkitEventListeners_callDuration (s : State) :
    (setupToolkitEventListeners s).callDuration = s.callDuration := by
  unfold setupToolkitEventListeners stopToolkitPolling; split <;> rfl

theorem setupToolkitEventListeners_formattedCallDuration (s : State) :
    (setupToolkitEventListeners s).formattedCallDuration
      = s.formattedCallDuration := by
  unfold setupToolkitEventListeners stopToolkitPolling; split <;> rfl

theorem setupToolkitEventListeners_holdSessions (s : State) :
    (setupToolkitEventListeners s).holdSessions = s.holdSessions := by
  unfold setupToolkitEventListeners stopToolkitPolling; split <;> rfl

theorem setupToolkitEventListeners_totalHoldTime (s : State) :
    (setupToolkitEventListeners s).totalHoldTime = s.totalHoldTime := by
  unfold setupToolkitEventListeners stopToolkitPolling; split <;> rfl

theorem cleanupTimers_callStatus (s : State) :
    (cleanupTimers s).callStatus = s.callStatus := rfl

theorem cleanupTimers_callStartTime (s : State) :
    (cleanupTimers s).callStartTime = s.callStartTime := rfl

theorem cleanupTimers_callDuration (s : State) :
    (cleanupTimers s).callDuration = s.callDuration := rfl

theorem cleanupTimers_formattedCallDuration (s : State) :
    (cleanupTimers s).formattedCallDuration = s.formattedCallDuration := rfl

theorem cleanupTimers_holdSessions (s : State) :
    (cleanupTimers s).holdSessions = s.holdSessions := rfl

theorem cleanupTimers_totalHoldTime (s : State) :
    (cleanupTimers s).totalHoldTime = s.totalHoldTime := rfl

theorem finalizeCall_callStatus (now : Int) (s : State) :
    (finalizeCall now s).callStatus = "Ended" := by
  unfold finalizeCall
  dsimp only
  rw [cleanupTimers_callStatus]
  split
  · rw [endHoldTimer_callStatus]
  · rfl

theorem finalizeCall_callStartTime (now : Int) (s : State) :
    (finalizeCall now s).callStartTime = s.callStartTime := by
  unfold finalizeCall
  dsimp only
  rw [cleanupTimers_callStartTime]
  split
  · rw [endHoldTimer_callStartTime]
  · rfl

theorem finalizeCall_callDuration (now : Int) (s : State) :
    (finalizeCall now s).callDuration = s.callDuration := by
  unfold finalizeCall
  dsimp only
  rw [cleanupTimers_callDuration]
  split
  · rw [endHoldTimer_callDuration]
  · rfl

theorem finalizeCall_formattedCallDuration (now : Int) (s : State) :
    (finalizeCall now s).formattedCallDuration = s.formattedCallDuration := by
  unfold finalizeCall
  dsimp only
  rw [cleanupTimers_formattedCallDuration]
  split
  · rw [endHoldTimer_formattedCallDuration]
  · rfl

/-- A concrete state with one open hold session (entered hold at
t = 1000 ms), used to instantiate hypothesised theorems. -/
def sHold : State :=
  { initialState with isOnHold := true, currentHoldStart := some 1000,
                      holdTimerInterval := true }

/-- A concrete finalized state, used to instantiate hypothesised
theorems. -/
def sEnded : State :=
  { initialState with callStatus := "Ended" }

/-! ### Claims -/

/-- C9: the severity tier (`getHoldColorClass`) is a pure function of
the displayed hold total with exact boundaries: totals in `[0,30]` are
Low (green), totals in `(30,120]` are Medium (yellow), and totals above
`120` are High (red), including exactly at `30` and `120`. -/
theorem c9_severity_tier_boundaries (t : Int) :
    (0 ≤ t → t ≤ 30 → getHoldColorClass t = "hold-timer-green") ∧
    (30 < t → t ≤ 120 → getHoldColorClass t = "hold-timer-yellow") ∧
    (120 < t → getHoldColorClass t = "hold-timer-red") := by
  unfold getHoldColorClass
  refine ⟨fun _ h2 => ?_, fun h1 h2 => ?_, fun h1 => ?_⟩
  · rw [if_pos h2]
  · rw [if_neg (by omega), if_pos h2]
  · rw [if_neg (by omega), if_neg (by omega)]

/-- Witness for C9 at the boundary totals 30, 120 and at 121. -/
theorem c9_witness :
    getHoldColorClass 30 = "hold-timer-green" ∧
    getHoldColorClass 120 = "hold-timer-yellow" ∧
    getHoldColorClass 121 = "hold-timer-red" :=
  ⟨(c9_severity_tier_boundaries 30).1 (by decide) (by decide),
   (c9_severity_tier_boundaries 120).2.1 (by decide) (by decide),
   (c9_severity_tier_boundaries 121).2.2 (by decide)⟩

/-- C10: the public read API agrees with the internal hold accounting:
`getCurrentHoldTime` is `0` whenever no hold session is open, and
`getTotalHoldTime` is always `totalHoldTime` plus the open session's
elapsed seconds, hence exactly `totalHoldTime` when not on hold. -/
theorem c10_public_hold_api (s : State) (now : Int) :
    ((s.isOnHold = false ∨ s.currentHoldStart = none) →
      getCurrentHoldTime now s = 0) ∧
    getTotalHoldTime now s = s.totalHoldTime + getCurrentHoldTime now s ∧
    (s.isOnHold = false → getTotalHoldTime now s = s.totalHoldTime) ∧
    (∀ h, s.isOnHold = true → s.currentHoldStart = some h →
      getCurrentHoldTime now s = (now - h).fdiv 1000) := by
  have hz : (s.isOnHold = false ∨ s.currentHoldStart = none) →
      getCurrentHoldTime now s = 0 := by
    intro h
    unfold getCurrentHoldTime
    rcases h with h | h
    · rw [h]
    · rw [h]
      split <;> simp_all
  refine ⟨hz, rfl, fun h => ?_, fun h hOn hStart => ?_⟩
  · unfold getTotalHoldTime
    rw [hz (Or.inl h), Int.add_zero]
  · unfold getCurrentHoldTime
    rw [hOn, hStart]

/-- Witness for C10 on a not-on-hold state and on `sHold` at
t = 5000 ms. -/
theorem c10_witness :
    getCurrentHoldTime 5000 initialState = 0 ∧
    getTotalHoldTime 5000 initialState = initialState.totalHoldTime ∧
    getCurrentHoldTime 5000 sHold = (5000 - 1000 : Int).fdiv 1000 :=
  ⟨(c10_public_hold_api initialState 5000).1 (Or.inl rfl),
   (c10_public_hold_api initialState 5000).2.2.1 rfl,
   (c10_public_hold_api sHold 5000).2.2.2 1000 rfl rfl⟩

/-- C4: normalizing a raw `resume` event is decided solely by the
current hold flag: on hold it is processed as a HoldEnd (closing the
open hold session), otherwise as a HoldStart (opening a new hold
session anchored at the event's time). -/
theorem c4_resume_dispatch (s : State) (now : Int) :
    (s.isOnHold = true → handleResumeEvent now s = endHoldTimer now s) ∧
    (s.isOnHold = false → handleResumeEvent now s = startHoldTimer now s) ∧
    (∀ h, s.isOnHold = true → s.currentHoldStart = some h →
      (handleResumeEvent now s).isOnHold = false ∧
      (handleResumeEvent now s).currentHoldStart = none ∧
      (handleResumeEvent now s).holdSessions = s.holdSessions ++
        [{ sessionNumber := s.holdSessions.length + 1, startTime := h,
           endTime := now, duration := (now - h).fdiv 1000 }]) ∧
    (s.isOnHold = false →
      (handleResumeEvent now s).isOnHold = true ∧
      (handleResumeEvent now s).currentHoldStart = some now) := by
  refine ⟨fun h => ?_, fun h => ?_, fun h hOn hStart => ?_, fun h => ?_⟩
  · unfold handleResumeEvent
    rw [if_pos h]
  · unfold handleResumeEvent
    rw [h]
    rfl
  · unfold handleResumeEvent endHoldTimer
    rw [if_pos hOn, hOn, hStart]
    exact ⟨rfl, rfl, rfl⟩
  · unfold handleResumeEvent startHoldTimer
    rw [h]
    exact ⟨rfl, rfl⟩

/-- Witness for C4 on `sHold` (on hold) and `initialState` (not on
hold). -/
theorem c4_witness :
    handleResumeEvent 5000 sHold = endHoldTimer 5000 sHold ∧
    handleResumeEvent 5000 initialState = startHoldTimer 5000 initialState :=
  ⟨(c4_resume_dispatch sHold 5000).1 rfl,
   (c4_resume_dispatch initialState 5000).2.1 rfl⟩

/-- Folding further `HoldStart` intents over a state already on hold
changes nothing. -/
theorem foldl_startHoldTimer_of_onHold (ts : List Int) (s : State)
    (h : s.isOnHold = true) :
    List.foldl (fun st n => startHoldTimer n st) s ts = s := by
  induction ts with
  | nil => rfl
  | cons t ts ih =>
      have hs : startHoldTimer t s = s := by
        unfold startHoldTimer
        rw [if_pos h]
      rw [List.foldl_cons, hs, ih]

/-- C7: a `HoldStart` while already on hold is a no-op: in any sequence
of `HoldStart` intents with no intervening `HoldEnd`, only the first
opens a hold session, and each repeated `HoldStart` leaves the state
(in particular `currentHoldStart`, `isOnHold`, `totalHoldTime` and
`holdSessions`) entirely unchanged. -/
theorem c7_holdstart_idempotent (s : State) (now : Int) :
    (s.isOnHold = true → startHoldTimer now s = s) ∧
    (startHoldTimer now s).holdSessions = s.holdSessions ∧
    (startHoldTimer now s).totalHoldTime = s.totalHoldTime ∧
    (startHoldTimer now s).isOnHold = true ∧
    (∀ ts : List Int,
      List.foldl (fun st n => startHoldTimer n st) s (now :: ts)
        = startHoldTimer now s) := by
  refine ⟨fun h => ?_, startHoldTimer_holdSessions now s,
          startHoldTimer_totalHoldTime now s, startHoldTimer_isOnHold now s,
          fun ts => ?_⟩
  · unfold startHoldTimer
    rw [if_pos h]
  · rw [List.foldl_cons]
    exact foldl_startHoldTimer_of_onHold ts _ (startHoldTimer_isOnHold now s)

/-- Witness for C7: three consecutive `HoldStart` intents from a fresh
state equal a single one. -/
theorem c7_witness :
    List.foldl (fun st n => startHoldTimer n st) initialState
        [1000, 2000, 3000]
      = startHoldTimer 1000 initialState ∧
    startHoldTimer 2000 sHold = sHold :=
  ⟨(c7_holdstart_idempotent initialState 1000).2.2.2.2 [2000, 3000],
   (c7_holdstart_idempotent sHold 2000).1 rfl⟩

/-- C8: any sequence of `HoldEnd` intents processed while not on hold
is a no-op: the state (in particular `totalHoldTime` and
`holdSessions`) is returned unchanged and no `HoldSession` is
appended. -/
theorem c8_holdend_noop (s : State) (hOff : s.isOnHold = false)
    (ts : List Int) :
    List.foldl (fun st n => endHoldTimer n st) s ts = s := by
  induction ts with
  | nil => rfl
  | cons t ts ih =>
      rw [List.foldl_cons, endHoldTimer_of_not_onHold t s hOff, ih]

/-- Witness for C8: two `HoldEnd` intents on the fresh (not on hold)
state leave it untouched. -/
theorem c8_witness :
    List.foldl (fun st n => endHoldTimer n st) initialState [1000, 2000]
      = initialState :=
  c8_holdend_noop initialState rfl [1000, 2000]

/-- Full effect of `endHoldTimer` on a state that is on hold. -/
theorem endHoldTimer_spec (now : Int) (s : State) (h : Int)
    (hOn : s.isOnHold = true) (hStart : s.currentHoldStart = some h) :
    endHoldTimer now s =
      { s with
        totalHoldTime := s.totalHoldTime + (now - h).fdiv 1000,
        holdSessions := s.holdSessions ++
          [{ sessionNumber := s.holdSessions.length + 1, startTime := h,
             endTime := now, duration := (now - h).fdiv 1000 }],
        isOnHold := false,
        currentHoldStart := none,
        holdTimerInterval := false,
        formattedTotalHoldTime :=
          formatTime (s.totalHoldTime + (now - h).fdiv 1000) false,
        holdColorClass :=
          getHoldColorClass (s.totalHoldTime + (now - h).fdiv 1000) } := by
  unfold endHoldTimer
  rw [hOn, hStart]

/-- C3: a `CallEnded` intent processed at time `now` while on hold
force-closes the open hold session with end time `now` (adding its
duration to the accumulated total and appending the session record),
sets the status to `Ended`, records `callEndDateTime = now`, cancels
both interval timers leaving the last computed call duration frozen,
and marks telephony unavailable. -/
theorem c3_finalize_while_on_hold (s : State) (now h : Int)
    (hOn : s.isOnHold = true) (hStart : s.currentHoldStart = some h) :
    (finalizeCall now s).callStatus = "Ended" ∧
    (finalizeCall now s).isCallActive = false ∧
    (finalizeCall now s).callEndDateTime = some now ∧
    (finalizeCall now s).telephonyAvailable = false ∧
    (finalizeCall now s).isOnHold = false ∧
    (finalizeCall now s).currentHoldStart = none ∧
    (finalizeCall now s).holdSessions = s.holdSessions ++
      [{ sessionNumber := s.holdSessions.length + 1, startTime := h,
         endTime := now, duration := (now - h).fdiv 1000 }] ∧
    (finalizeCall now s).totalHoldTime
      = s.totalHoldTime + (now - h).fdiv 1000 ∧
    (finalizeCall now s).formattedTotalHoldTime
      = formatTime (s.totalHoldTime + (now - h).fdiv 1000) false ∧
    (finalizeCall now s).callDurationInterval = false ∧
    (finalizeCall now s).holdTimerInterval = false ∧
    (finalizeCall now s).callDuration = s.callDuration ∧
    (finalizeCall now s).formattedCallDuration = s.formattedCallDuration := by
  unfold finalizeCall
  dsimp only
  rw [if_pos hOn,
      endHoldTimer_spec now
        { s with isCallActive := false, callStatus := "Ended",
                 callEndDateTime := some now, telephonyAvailable := false }
        h hOn hStart]
  exact ⟨rfl, rfl, rfl, rfl, rfl, rfl, rfl, rfl, rfl, rfl, rfl, rfl, rfl⟩

/-- Witness for C3 on `sHold` (on hold since t = 1000 ms) with the
`CallEnded` intent at t = 5000 ms: one 4-second session is closed at
5000 and the call is finalized. -/
theorem c3_witness :
    (finalizeCall 5000 sHold).callStatus = "Ended" ∧
    (finalizeCall 5000 sHold).holdSessions = sHold.holdSessions ++
      [{ sessionNumber := sHold.holdSessions.length + 1, startTime := 1000,
         endTime := 5000, duration := (5000 - 1000 : Int).fdiv 1000 }] ∧
    (finalizeCall 5000 sHold).totalHoldTime
      = sHold.totalHoldTime + (5000 - 1000 : Int).fdiv 1000 ∧
    (finalizeCall 5000 sHold).telephonyAvailable = false :=
  ⟨(c3_finalize_while_on_hold sHold 5000 1000 rfl rfl).1,
   (c3_finalize_while_on_hold sHold 5000 1000 rfl rfl).2.2.2.2.2.2.1,
   (c3_finalize_while_on_hold sHold 5000 1000 rfl rfl).2.2.2.2.2.2.2.1,
   (c3_finalize_while_on_hold sHold 5000 1000 rfl rfl).2.2.2.1⟩

/-- C1 counterexample: after `CallStarted → CallConnected → CallEnded`
the status is `Ended`, but a further `CallStarted` event sets it back
to `Incoming` — the handlers have no terminal-state guard, so the
claim that `callStatus` remains `Ended` for every event delivered
after finalization is false on the code. -/
theorem c1_counterexample :
    (run [(Event.callstarted, 0), (Event.callconnected, 1000),
          (Event.callended, 2000)] initialState).callStatus = "Ended" ∧
    (run [(Event.callstarted, 0), (Event.callconnected, 1000),
          (Event.callended, 2000), (Event.callstarted, 3000)]
        initialState).callStatus = "Incoming" :=
  ⟨rfl, rfl⟩

/-- C1 (amended): once `callStatus` is `Ended`, every intent except
`CallStarted` and `CallConnected` leaves it `Ended` (hold, resume,
mute, unmute, repeated `CallEnded`/`hangup`, timer ticks, record loads
and toolkit discovery); but `CallStarted` sets it to `Incoming` and
`CallConnected` to `Connected`, restarting the lifecycle. -/
theorem c1_amended_terminal_status (s : State) (now : Int)
    (hEnd : s.callStatus = "Ended") :
    (∀ e : Event, e ≠ Event.callstarted → e ≠ Event.callconnected →
      (step e now s).callStatus = "Ended") ∧
    (step Event.callstarted now s).callStatus = "Incoming" ∧
    (step Event.callconnected now s).callStatus = "Connected" := by
  refine ⟨fun e h1 h2 => ?_, rfl, rfl⟩
  cases e with
  | hold => exact (startHoldTimer_callStatus now s).trans hEnd
  | resume =>
      show (handleResumeEvent now s).callStatus = "Ended"
      unfold handleResumeEvent
      split
      · exact (endHoldTimer_callStatus now s).trans hEnd
      · exact (startHoldTimer_callStatus now s).trans hEnd
  | mute => exact hEnd
  | unmute => exact hEnd
  | callstarted => exact absurd rfl h1
  | callconnected => exact absurd rfl h2
  | callended => exact finalizeCall_callStatus now s
  | hangup => exact finalizeCall_callStatus now s
  | durationTick => exact (updateCallDuration_callStatus now s).trans hEnd
  | holdTick => exact (updateHoldDisplayTimer_callStatus now s).trans hEnd
  | recordLoad cs ce =>
      exact (setupToolkitEventListeners_callStatus _).trans hEnd
  | toolkitFound => exact (setupToolkitEventListeners_callStatus s).trans hEnd

/-- Witness for the amended C1 on the concrete finalized state
`sEnded`. -/
theorem c1_witness :
    (step Event.mute 7 sEnded).callStatus = "Ended" ∧
    (step Event.callstarted 7 sEnded).callStatus = "Incoming" :=
  ⟨(c1_amended_terminal_status sEnded 7 rfl).1 Event.mute (by decide)
     (by decide),
   (c1_amended_terminal_status sEnded 7 rfl).2.1⟩

/-- C2 counterexample: a first `CallConnected` at t = 1000 ms anchors
`callStartTime = 1000`, but a second `CallConnected` at t = 5000 ms in
the same run changes it to `5000` — `handleCallStarted` re-sets the
anchor unconditionally, so the claim that further `CallConnected`
intents do not change it is false on the code. -/
theorem c2_counterexample :
    (run [(Event.callstarted, 0), (Event.callconnected, 1000)]
        initialState).callStartTime = some 1000 ∧
    (run [(Event.callstarted, 0), (Event.callconnected, 1000),
          (Event.callconnected, 5000)] initialState).callStartTime
      = some 5000 :=
  ⟨rfl, rfl⟩

/-- C2 (amended): every `CallConnected` intent sets `callStartTime` to
the time it is processed (a repeated `CallConnected` re-anchors the
clock rather than preserving the first anchor), and the displayed
duration advances only while the call is active and `callStartTime` is
set: otherwise `updateCallDuration` leaves `callDuration` unchanged
and displays `00:00:00`. -/
theorem c2_amended_connected_anchor (s : State) (now : Int) :
    (step Event.callconnected now s).callStartTime = some now ∧
    ((s.callStartTime = none ∨ s.isCallActive = false) →
      (updateCallDuration now s).callDuration = s.callDuration ∧
      (updateCallDuration now s).formattedCallDuration = "00:00:00") ∧
    (∀ t0, s.callStartTime = some t0 → s.isCallActive = true →
      (updateCallDuration now s).callDuration = (now - t0).fdiv 1000) := by
  refine ⟨rfl, fun h => ?_, fun t0 h1 h2 => ?_⟩
  · unfold updateCallDuration
    rcases h with h | h
    · rw [h]
      exact ⟨rfl, rfl⟩
    · cases hcs : s.callStartTime with
      | none => simp [hcs]
      | some t => simp [hcs, h]
  · unfold updateCallDuration
    rw [h1, h2]

/-- Witness for the amended C2: `CallConnected` at t = 1000 ms anchors
the fresh state, and a tick on the unanchored fresh state leaves the
numeric duration untouched. -/
theorem c2_witness :
    (step Event.callconnected 1000 initialState).callStartTime = some 1000 ∧
    (updateCallDuration 9999 initialState).callDuration
      = initialState.callDuration :=
  ⟨(c2_amended_connected_anchor initialState 1000).1,
   ((c2_amended_connected_anchor initialState 9999).2.1 (Or.inl rfl)).1⟩

/-- One step of any stimulus other than `CallConnected` keeps the
duration clock unanchored and the displayed duration zero. -/
theorem step_preserves_unanchored (e : Event) (now : Int) (s : State)
    (he : e ≠ Event.callconnected)
    (h1 : s.callStartTime = none) (h2 : s.callDuration = 0)
    (h3 : s.formattedCallDuration = "00:00:00") :
    (step e now s).callStartTime = none ∧
    (step e now s).callDuration = 0 ∧
    (step e now s).formattedCallDuration = "00:00:00" := by
  cases e with
  | hold =>
      exact ⟨(startHoldTimer_callStartTime now s).trans h1,
             (startHoldTimer_callDuration now s).trans h2,
             (startHoldTimer_formattedCallDuration now s).trans h3⟩
  | resume =>
      show (handleResumeEvent now s).callStartTime = none ∧
        (handleResumeEvent now s).callDuration = 0 ∧
        (handleResumeEvent now s).formattedCallDuration = "00:00:00"
      unfold handleResumeEvent
      split
      · exact ⟨(endHoldTimer_callStartTime now s).trans h1,
               (endHoldTimer_callDuration now s).trans h2,
               (endHoldTimer_formattedCallDuration now s).trans h3⟩
      · exact ⟨(startHoldTimer_callStartTime now s).trans h1,
               (startHoldTimer_callDuration now s).trans h2,
               (startHoldTimer_formattedCallDuration now s).trans h3⟩
  | mute => exact ⟨h1, h2, h3⟩
  | unmute => exact ⟨h1, h2, h3⟩
  | callstarted => exact ⟨h1, h2, h3⟩
  | callconnected => exact absurd rfl he
  | callended =>
      exact ⟨(finalizeCall_callStartTime now s).trans h1,
             (finalizeCall_callDuration now s).trans h2,
             (finalizeCall_formattedCallDuration now s).trans h3⟩
  | hangup =>
      exact ⟨(finalizeCall_callStartTime now s).trans h1,
             (finalizeCall_callDuration now s).trans h2,
             (finalizeCall_formattedCallDuration now s).trans h3⟩
  | durationTick =>
      show (updateCallDuration now s).callStartTime = none ∧
        (updateCallDuration now s).callDuration = 0 ∧
        (updateCallDuration now s).formattedCallDuration = "00:00:00"
      unfold updateCallDuration
      split <;> simp_all
  | holdTick =>
      exact ⟨(updateHoldDisplayTimer_callStartTime now s).trans h1,
             (updateHoldDisplayTimer_callDuration now s).trans h2,
             (updateHoldDisplayTimer_formattedCallDuration now s).trans h3⟩
  | recordLoad cs ce =>
      exact ⟨(setupToolkitEventListeners_callStartTime _).trans h1,
             (setupToolkitEventListeners_callDuration _).trans h2,
             (setupToolkitEventListeners_formattedCallDuration _).trans h3⟩
  | toolkitFound =>
      exact ⟨(setupToolkitEventListeners_callStartTime s).trans h1,
             (setupToolkitEventListeners_callDuration s).trans h2,
             (setupToolkitEventListeners_formattedCallDuration s).trans h3⟩

/-- Running any `CallConnected`-free stimulus sequence keeps the clock
unanchored and the displayed duration zero. -/
theorem run_preserves_unanchored (evs : List (Event × Int)) :
    ∀ s : State, (∀ p ∈ evs, p.1 ≠ Event.callconnected) →
    s.callStartTime = none → s.callDuration = 0 →
    s.formattedCallDuration = "00:00:00" →
    (run evs s).callStartTime = none ∧ (run evs s).callDuration = 0 ∧
    (run evs s).formattedCallDuration = "00:00:00" := by
  induction evs with
  | nil => exact fun s _ h1 h2 h3 => ⟨h1, h2, h3⟩
  | cons p rest ih =>
      intro s hmem h1 h2 h3
      obtain ⟨g1, g2, g3⟩ :=
        step_preserves_unanchored p.1 p.2 s
          (hmem p (List.mem_cons_self p rest)) h1 h2 h3
      exact ih (step p.1 p.2 s)
        (fun q hq => hmem q (List.mem_cons_of_mem p hq)) g1 g2 g3

/-- C5: for every stimulus sequence with no `CallConnected` intent, the
duration clock is never anchored and the displayed call duration is
exactly zero — regardless of how many `CallStarted` events occur and
regardless of any toolkit-reported call-start timestamp delivered by a
record load (whose `CallStartDateTime` the engine never reads). -/
theorem c5_zero_duration_before_connected (evs : List (Event × Int))
    (h : ∀ p ∈ evs, p.1 ≠ Event.callconnected) :
    (run evs initialState).callStartTime = none ∧
    (run evs initialState).callDuration = 0 ∧
    (run evs initialState).formattedCallDuration = "00:00:00" :=
  run_preserves_unanchored evs initialState h rfl rfl rfl

/-- Witness for C5: two `CallStarted` events, a record load reporting a
toolkit call-start timestamp, and a duration tick still display
zero. -/
theorem c5_witness :
    (run [(Event.callstarted, 0), (Event.callstarted, 50),
          (Event.recordLoad (some 123) none, 60), (Event.durationTick, 99)]
        initialState).callStartTime = none ∧
    (run [(Event.callstarted, 0), (Event.callstarted, 50),
          (Event.recordLoad (some 123) none, 60), (Event.durationTick, 99)]
        initialState).formattedCallDuration = "00:00:00" :=
  ⟨(c5_zero_duration_before_connected _ (by decide)).1,
   (c5_zero_duration_before_connected _ (by decide)).2.2⟩

/-- The hold-accounting invariant: the accumulated total equals the sum
of the completed sessions' durations, and the session numbers are the
gapless sequence `1..N`. -/
def holdAccounting (s : State) : Prop :=
  s.totalHoldTime = (s.holdSessions.map HoldSession.duration).sum ∧
  s.holdSessions.map HoldSession.sessionNumber
    = List.range' 1 s.holdSessions.length

theorem cleanupTimers_holdAccounting (s : State)
    (h : holdAccounting s) : holdAccounting (cleanupTimers s) := h

theorem startHoldTimer_holdAccounting (now : Int) (s : State)
    (h : holdAccounting s) : holdAccounting (startHoldTimer now s) := by
  unfold startHoldTimer
  split
  · exact h
  · exact h

theorem endHoldTimer_holdAccounting (now : Int) (s : State)
    (h : holdAccounting s) : holdAccounting (endHoldTimer now s) := by
  obtain ⟨h1, h2⟩ := h
  unfold holdAccounting endHoldTimer
  split
  · constructor
    · simp only [List.map_append, List.sum_append, List.map_cons,
        List.map_nil, List.sum_cons, List.sum_nil, Int.add_zero]
      rw [h1]
    · simp only [List.map_append, List.map_cons, List.map_nil,
        List.length_append, List.length_cons, List.length_nil,
        Nat.zero_add]
      rw [h2, List.range'_1_concat, Nat.add_comm 1 s.holdSessions.length]
  · exact ⟨h1, h2⟩

theorem step_holdAccounting (e : Event) (now : Int) (s : State)
    (h : holdAccounting s) : holdAccounting (step e now s) := by
  cases e with
  | hold => exact startHoldTimer_holdAccounting now s h
  | resume =>
      show holdAccounting (handleResumeEvent now s)
      unfold handleResumeEvent
      split
      · exact endHoldTimer_holdAccounting now s h
      · exact startHoldTimer_holdAccounting now s h
  | mute => exact h
  | unmute => exact h
  | callstarted => exact h
  | callconnected => exact ⟨rfl, rfl⟩
  | callended =>
      show holdAccounting (finalizeCall now s)
      unfold finalizeCall
      dsimp only
      apply cleanupTimers_holdAccounting
      split
      · exact endHoldTimer_holdAccounting now _ h
      · exact h
  | hangup =>
      show holdAccounting (finalizeCall now s)
      unfold finalizeCall
      dsimp only
      apply cleanupTimers_holdAccounting
      split
      · exact endHoldTimer_holdAccounting now _ h
      · exact h
  | durationTick =>
      show holdAccounting (updateCallDuration now s)
      unfold updateCallDuration
      split
      · exact h
      · exact h
  | holdTick =>
      show holdAccounting (updateHoldDisplayTimer now s)
      unfold updateHoldDisplayTimer
      split
      · exact h
      · exact h
  | recordLoad cs ce =>
      show holdAccounting (setupToolkitEventListeners _)
      unfold setupToolkitEventListeners stopToolkitPolling
      split
      · exact h
      · exact h
  | toolkitFound =>
      show holdAccounting (setupToolkitEventListeners s)
      unfold setupToolkitEventListeners stopToolkitPolling
      split
      · exact h
      · exact h

theorem run_holdAccounting (evs : List (Event × Int)) :
    ∀ s : State, holdAccounting s → holdAccounting (run evs s) := by
  induction evs with
  | nil => exact fun _ h => h
  | cons p rest ih =>
      exact fun s h => ih (step p.1 p.2 s) (step_holdAccounting p.1 p.2 s h)

/-- C6: after any stimulus sequence, `totalHoldTime` equals the exact
sum of the completed hold sessions' durations, and the session numbers
are exactly `1..N` in order with no gaps. -/
theorem c6_hold_accounting (evs : List (Event × Int)) :
    (run evs initialState).totalHoldTime
      = ((run evs initialState).holdSessions.map HoldSession.duration).sum ∧
    (run evs initialState).holdSessions.map HoldSession.sessionNumber
      = List.range' 1 (run evs initialState).holdSessions.length :=
  run_holdAccounting evs initialState ⟨rfl, rfl⟩

end UnifiedPhoneControls
